import Mathlib

/-!
Verification development for the `mothership-setup` provisioning script
(`src/bin/setup.js`).  The script is shallowly embedded as follows:

* `retryAux` / `retryPromiseIfNeeded` — the retry combinator
  `retryPromiseIfNeeded(fn, failedAttemptCb, maxTries)` (source lines 125-145).
  An asynchronous action is modelled as `fn : Nat → Except ε α` giving the
  outcome of the i-th invocation (1-based, matching the script's 1-based
  `attempt` counter).  The optional failure callback is modelled as
  `Option (ε → Bool)`: `true` means the callback returned normally, `false`
  means it threw synchronously.  In the JavaScript, a synchronous throw
  inside the `.catch` handler prevents `attemptPromise()` from being called
  again and leaves the outer promise forever unsettled; the model renders
  an unsettled promise as result `none`.  The model also returns how many
  times the action and the callback were invoked.

* `retryEvents` — the same combinator, but producing the ordered list of
  observable events (attempt starts, observed failures/successes, callback
  invocations) instead of counts, for temporal claims.

* `hexDigit` / `bytesToHex` / `dockerComposeContentFrom` — the template
  function `dockerComposeContent(domain, swarmManagerIp)` (source lines
  29-70).  The `crypto.randomBytes(256)` draw is an explicit parameter
  `buf : List Nat` (one entry per byte); `Buffer.toString('hex')` is
  `bytesToHex`.  The template literal concatenates a fixed prefix, the hex
  secret, and a suffix embedding the domain and the swarm manager IP, which
  is mirrored literally by `composePre`/`composePost`.

* `ExtCall` / `mainRun` — the orchestrator `main` (source lines 147-304).
  Every external effect is one `ExtCall`: a direct `docker-machine` provider
  call (`createMachine`, `inspectIp`), a remote command over ssh on a named
  host (`ssh`), or a local `spawnSync` shell command (`spawnSyncCmd`).  The
  environment is a deterministic oracle `ExtCall → Except String String`.
  `mainRun` replays `main` literally: the retried create of host A with its
  local `spawnSync` cleanup, the `inspect` for host A's IP, the tooling
  installs, the retried create of the swarm host issued through ssh on host
  A with its ssh `docker-machine rm` cleanup, the swarm bring-up commands,
  the descriptor write, and the stack start/migrate/seed commands, and it
  records the ordered trace of issued calls.  A step exhausting its retries
  becomes `MainOutcome.exited` (the script logs and calls `process.exit`);
  a failing un-retried `await` becomes `MainOutcome.crashed` (an unhandled
  rejection); reaching the final DNS report becomes `MainOutcome.completed`.
-/

namespace MothershipSetup

/-- Single-quote character as a string (the YAML template contains `'3'`). -/
def sq : String := (Char.ofNat 39).toString

/-- Source constant `MOTHERSHIP_NODE_NAME` (line 26). -/
def MOTHERSHIP_NODE_NAME : String := "mothership-paas"

/-- Source constant `SWARM_MANAGER_NODE_NAME` (line 27). -/
def SWARM_MANAGER_NODE_NAME : String := "mothership-swarm"

/-- Lowercase hex digit for a nibble, as produced by Node's
`Buffer.toString('hex')`. -/
def hexDigit (n : Nat) : Char :=
  if n < 10 then Char.ofNat (48 + n) else Char.ofNat (87 + n)

/-- Hex encoding of a byte list, two lowercase digits per byte
(high nibble first), as a character list. -/
def bytesToHexChars : List Nat → List Char
  | [] => []
  | b :: bs => hexDigit (b / 16) :: hexDigit (b % 16) :: bytesToHexChars bs

/-- Hex encoding of a byte buffer: model of `buf.toString('hex')` (line 31). -/
def bytesToHex (bs : List Nat) : String :=
  String.mk (bytesToHexChars bs)

/-- The part of the `docker-compose.yml` template literal before the
generated secret (source lines 33-43). -/
def composePre : String :=
  "version: " ++ sq ++ "3" ++ sq ++
  "\n\nservices:\n  web:\n    image: mothershippaas/mothership:latest\n    volumes:\n      - /var/run/docker.sock:/var/run/docker.sock\n      - /root/.docker:/root/.docker\n    environment:\n      - NODE_ENV=production\n      - SESSION_SECRET="

/-- The part of the `docker-compose.yml` template literal after the
generated secret (source lines 43-69), embedding the operator-supplied
domain and the swarm manager IP verbatim. -/
def composePost (domain swarmManagerIp : String) : String :=
  "\n      - REDIS_HOST=redis\n      - DB_USERNAME=postgres\n      - DB_NAME=paas_development\n      - DB_HOST=database\n      - DB_PASSWORD=password\n      - MOTHERSHIP_DOMAIN=" ++
  domain ++
  "\n      - MOTHERSHIP_MANAGER_NAME=" ++ SWARM_MANAGER_NODE_NAME ++
  "\n      - MOTHERSHIP_MANAGER_IP=" ++ swarmManagerIp ++
  "\n    ports:\n      - \"443:443\"\n      - \"80:80\"\n      - \"3000:3000\"\n\n  database:\n    image: postgres\n    environment:\n      - POSTGRES_DB=paas_development\n      - POSTGRES_PASSWORD=password\n    volumes:\n      - db_data:/var/lib/postgresql/data\n\n  redis:\n    image: redis\n\nvolumes:\n  db_data:"

/-- Model of `dockerComposeContent(domain, swarmManagerIp)` (source lines
29-70): the function draws `buf = crypto.randomBytes(256)`, sets
`sessionSecret = buf.toString('hex')`, and returns the template literal,
which concatenates the fixed prefix, the secret, and the suffix embedding
`domain` and `swarmManagerIp`.  The random draw is the explicit parameter
`buf`. -/
def dockerComposeContentFrom (buf : List Nat) (domain swarmManagerIp : String) : String :=
  let sessionSecret := bytesToHex buf
  composePre ++ sessionSecret ++ composePost domain swarmManagerIp

/-- Model of `retryPromiseIfNeeded`'s inner loop `attemptPromise` (source
lines 129-141), starting from a given value of the 1-based `attempt`
counter.  `fn i` is the settled outcome of the i-th invocation of the
action; `failedAttemptCb` maps the observed error to `true` (callback
returned) or `false` (callback threw synchronously, so `attemptPromise()`
is never re-invoked and the outer promise never settles, modelled as
result `none`).  Returns (settled result if any, number of action
invocations, number of callback invocations). -/
def retryAux {ε α : Type} (fn : Nat → Except ε α) (failedAttemptCb : Option (ε → Bool))
    (maxTries : Int) (attempt : Nat) : Option (Except ε α) × Nat × Nat :=
  match fn attempt with
  | .ok result => (some (.ok result), 1, 0)
  | .error err =>
    if _h : (attempt : Int) ≥ maxTries then
      (some (.error err), 1, 0)
    else
      match failedAttemptCb with
      | none =>
        let r := retryAux fn none maxTries (attempt + 1)
        (r.1, r.2.1 + 1, r.2.2)
      | some cb =>
        if cb err then
          let r := retryAux fn (some cb) maxTries (attempt + 1)
          (r.1, r.2.1 + 1, r.2.2 + 1)
        else
          (none, 1, 1)
termination_by (maxTries - (attempt : Int)).toNat
decreasing_by
  all_goals
    simp_wf
    omega

/-- Model of `retryPromiseIfNeeded(fn, failedAttemptCb, maxTries)` (source
lines 125-145): run the attempt loop starting at `attempt = 1`. -/
def retryPromiseIfNeeded {ε α : Type} (fn : Nat → Except ε α)
    (failedAttemptCb : Option (ε → Bool)) (maxTries : Int) :
    Option (Except ε α) × Nat × Nat :=
  retryAux fn failedAttemptCb maxTries 1

/-- Observable events of one execution of `retryPromiseIfNeeded`. -/
inductive RetryEvent (ε : Type) where
  | attemptStart (n : Nat)
  | attemptFail (n : Nat) (e : ε)
  | attemptSuccess (n : Nat)
  | callbackRun (n : Nat) (e : ε)
  deriving DecidableEq

/-- Event-trace model of `retryPromiseIfNeeded`'s loop (source lines
129-141): the ordered list of observable events.  An attempt starts
(`fn()` is invoked), then its settled outcome is observed; on a non-final
failure the callback (if supplied) is invoked synchronously before the
next attempt starts; a synchronously-throwing callback (`false`) ends the
execution with no further events. -/
def retryEvents {ε α : Type} (fn : Nat → Except ε α) (failedAttemptCb : Option (ε → Bool))
    (maxTries : Int) (attempt : Nat) : List (RetryEvent ε) :=
  match fn attempt with
  | .ok _ => [.attemptStart attempt, .attemptSuccess attempt]
  | .error err =>
    if _h : (attempt : Int) ≥ maxTries then
      [.attemptStart attempt, .attemptFail attempt err]
    else
      match failedAttemptCb with
      | none =>
        .attemptStart attempt :: .attemptFail attempt err ::
          retryEvents fn none maxTries (attempt + 1)
      | some cb =>
        if cb err then
          .attemptStart attempt :: .attemptFail attempt err :: .callbackRun attempt err ::
            retryEvents fn (some cb) maxTries (attempt + 1)
        else
          [.attemptStart attempt, .attemptFail attempt err, .callbackRun attempt err]
termination_by (maxTries - (attempt : Int)).toNat
decreasing_by
  all_goals
    simp_wf
    omega

/-- One external call issued by `main`: a direct provider call
(`DockerMachine.create` / `machine.inspect`), a remote command over ssh on
a named machine (`machine.ssh`), or a local shell command (`spawnSync`). -/
inductive ExtCall where
  | createMachine (name accessToken : String)
  | inspectIp (name : String)
  | ssh (host cmd : String)
  | spawnSyncCmd (cmd : String)
  deriving DecidableEq

/-- Final observable outcome of `main`: the DNS record table printed on
success, an explicit `process.exit` after a retry-exhaustion message
(recording the failed spinner label and the logged message), or a crash
from an unhandled rejection of an un-retried `await`. -/
inductive MainOutcome where
  | completed (dns : List (List String))
  | exited (failedStep msg : String)
  | crashed (err : String)
  deriving DecidableEq

/-- Command installing docker-compose, first ssh call (source line 194). -/
def installComposeCurlCmd : String :=
  "sudo curl -L \"https://github.com/docker/compose/releases/download/1.25.0/docker-compose-$(uname -s)-$(uname -m)\" -o /usr/local/bin/docker-compose"

/-- Command installing docker-compose, second ssh call (source line 195). -/
def installComposeChmodCmd : String :=
  "sudo chmod +x /usr/local/bin/docker-compose"

/-- Command installing docker-machine on host A (source lines 199-202; the
template literal contains real newlines and the continuation lines'
leading two spaces). -/
def installMachineCmd : String :=
  "base=https://github.com/docker/machine/releases/download/v0.16.2 &&\n  curl -L $base/docker-machine-$(uname -s)-$(uname -m) >/tmp/docker-machine &&\n  sudo mv /tmp/docker-machine /usr/local/bin/docker-machine &&\n  chmod +x /usr/local/bin/docker-machine"

/-- Provider-CLI command creating the swarm manager droplet, run through
ssh on host A (source line 212). -/
def createSwarmCmd (accessToken : String) : String :=
  "docker-machine create --driver digitalocean --digitalocean-access-token " ++
    accessToken ++ " " ++ SWARM_MANAGER_NODE_NAME

/-- Provider-CLI command destroying the swarm manager droplet, run through
ssh on host A as the create-retry compensation (source line 214). -/
def rmSwarmCmd : String :=
  "docker-machine rm -y " ++ SWARM_MANAGER_NODE_NAME

/-- Local shell command destroying host A, run via `spawnSync` as the
create-retry compensation (source line 172). -/
def rmMothershipCmd : String :=
  "docker-machine rm -y " ++ MOTHERSHIP_NODE_NAME

/-- Provider-CLI command reading the swarm manager's IP, run through ssh on
host A (source line 225). -/
def swarmIpCmd : String :=
  "docker-machine ip " ++ SWARM_MANAGER_NODE_NAME

/-- Shared `eval $(docker-machine env ...)` preamble of the swarm commands
run through ssh on host A (source lines 231-256). -/
def swarmEnvCmd : String :=
  "eval $(docker-machine env " ++ SWARM_MANAGER_NODE_NAME ++ ");"

/-- Swarm initialisation command (source line 231). -/
def swarmInitCmd (swarmManagerIp : String) : String :=
  swarmEnvCmd ++ "docker swarm init --advertise-addr " ++ swarmManagerIp

/-- Overlay network creation command (source line 235). -/
def createNetworkCmd : String :=
  swarmEnvCmd ++ "docker network create --driver overlay proxy"

/-- docker-flow-swarm-listener service creation command (source lines
240-246; the template literal's backslash-newline continuations contribute
nothing, leaving single spaces). -/
def createListenerCmd : String :=
  swarmEnvCmd ++
  "docker service create --name swarm-listener --network proxy --mount \"type=bind,source=/var/run/docker.sock,target=/var/run/docker.sock\" -e DF_NOTIFY_CREATE_SERVICE_URL=http://proxy:8080/v1/docker-flow-proxy/reconfigure -e DF_NOTIFY_REMOVE_SERVICE_URL=http://proxy:8080/v1/docker-flow-proxy/remove --constraint " ++
  sq ++ "node.role==manager" ++ sq ++ " dockerflow/docker-flow-swarm-listener"

/-- docker-flow-proxy service creation command (source lines 251-256). -/
def createProxyCmd : String :=
  swarmEnvCmd ++
  "docker service create --name proxy -p 80:80 -p 443:443 --network proxy -e LISTENER_ADDRESS=swarm-listener dockerflow/docker-flow-proxy"

/-- Command writing the deployment descriptor on host A with shell append
redirection (source line 264). -/
def writeComposeCmd (content : String) : String :=
  "echo \"" ++ content ++ "\" >> docker-compose.yml"

/-- Stack start command (source line 268). -/
def composeUpCmd : String :=
  "docker-compose up -d"

/-- Database migration command (source line 276). -/
def migrateCmd : String :=
  "docker-compose run web ./node_modules/.bin/sequelize db:migrate"

/-- Database seed command (source line 281). -/
def seedCmd : String :=
  "docker-compose run web ./node_modules/.bin/sequelize db:seed:all"

/-- Spinner label of the host A creation step (source line 168); shown with
a cross by `loading.fail()` when the step's retries are exhausted. -/
def createMothershipLabel : String :=
  "Creating droplet for Mothership (this may take a few moments)..."

/-- Spinner label of the swarm manager creation step (source line 210). -/
def createSwarmLabel : String :=
  "Creating droplet for Mothership swarm manager..."

/-- Message logged when a create step exhausts its retries (source lines
177 and 219). -/
def createFailMsg : String :=
  "Could not successfully create node on 5 attempts."

/-- The DNS resource-record table printed on success (source lines
293-298). -/
def dnsTable (swarmManagerIp mothershipIp : String) : List (List String) :=
  [["Name", "Type", "IP Address"],
   ["@", "A", swarmManagerIp],
   ["*", "A", swarmManagerIp],
   ["mothership", "A", mothershipIp]]

/-- Run a block of sequentially awaited external calls with no retry: stop
at the first failure (whose rejection is unhandled in `main`), returning
the calls actually issued and the first error, if any. -/
def runSeq (env : ExtCall → Except String String) : List ExtCall → List ExtCall × Option String
  | [] => ([], none)
  | c :: rest =>
    match env c with
    | .error e => ([c], some e)
    | .ok _ =>
      let r := runSeq env rest
      (c :: r.1, r.2)

/-- `retryPromiseIfNeeded` as used inside `main`, against the deterministic
environment: each attempt issues the action call `act`; on a non-final
failure the compensation call `comp` is issued (its own outcome is ignored
— the host A compensation is a `spawnSync` whose result is discarded, and
the swarm compensation swallows its error with `.catch(() => ...)`), and
the action is retried.  Returns the ordered calls issued and the settled
result. -/
def retryCallsDet (env : ExtCall → Except String String) (act comp : ExtCall)
    (maxTries : Int) (attempt : Nat) : List ExtCall × Except String String :=
  match env act with
  | .ok v => ([act], .ok v)
  | .error e =>
    if h : (attempt : Int) ≥ maxTries then
      ([act], .error e)
    else
      let r := retryCallsDet env act comp maxTries (attempt + 1)
      (act :: comp :: r.1, r.2)
termination_by (maxTries - (attempt : Int)).toNat
decreasing_by
  simp_wf
  omega

/-- Shallow embedding of `main` (source lines 147-304) against a
deterministic environment `env`, with the operator inputs (`accessToken`,
`domain`) and the run's `crypto.randomBytes(256)` draw (`buf`) as
parameters.  Returns the ordered trace of external calls issued and the
final outcome.  Mirrors the source exactly: retried create of host A with
local `spawnSync` cleanup and `process.exit` on exhaustion; `inspect` for
host A's IP; two docker-compose install commands and one docker-machine
install command; retried create of the swarm manager through ssh on host A
with ssh cleanup and `process.exit` on exhaustion; swarm IP read (trimmed);
swarm init, overlay network, listener service, proxy service; descriptor
write; stack start, migrate, seed; DNS table. -/
def mainRun (env : ExtCall → Except String String) (accessToken domain : String)
    (buf : List Nat) : List ExtCall × MainOutcome :=
  let createA := ExtCall.createMachine MOTHERSHIP_NODE_NAME accessToken
  let r1 := retryCallsDet env createA (.spawnSyncCmd rmMothershipCmd) 5 1
  match r1.2 with
  | .error _ => (r1.1, .exited createMothershipLabel createFailMsg)
  | .ok _ =>
    let t1 := r1.1 ++ [ExtCall.inspectIp MOTHERSHIP_NODE_NAME]
    match env (.inspectIp MOTHERSHIP_NODE_NAME) with
    | .error e => (t1, .crashed e)
    | .ok mothershipIp =>
      let seg1 : List ExtCall :=
        [.ssh MOTHERSHIP_NODE_NAME installComposeCurlCmd,
         .ssh MOTHERSHIP_NODE_NAME installComposeChmodCmd,
         .ssh MOTHERSHIP_NODE_NAME installMachineCmd]
      let s1 := runSeq env seg1
      let t2 := t1 ++ s1.1
      match s1.2 with
      | some e => (t2, .crashed e)
      | none =>
        let r2 := retryCallsDet env (.ssh MOTHERSHIP_NODE_NAME (createSwarmCmd accessToken))
          (.ssh MOTHERSHIP_NODE_NAME rmSwarmCmd) 5 1
        let t3 := t2 ++ r2.1
        match r2.2 with
        | .error _ => (t3, .exited createSwarmLabel createFailMsg)
        | .ok _ =>
          let t4 := t3 ++ [ExtCall.ssh MOTHERSHIP_NODE_NAME swarmIpCmd]
          match env (.ssh MOTHERSHIP_NODE_NAME swarmIpCmd) with
          | .error e => (t4, .crashed e)
          | .ok rawIp =>
            let swarmManagerIp := rawIp.trim
            let seg2 : List ExtCall :=
              [.ssh MOTHERSHIP_NODE_NAME (swarmInitCmd swarmManagerIp),
               .ssh MOTHERSHIP_NODE_NAME createNetworkCmd,
               .ssh MOTHERSHIP_NODE_NAME createListenerCmd,
               .ssh MOTHERSHIP_NODE_NAME createProxyCmd,
               .ssh MOTHERSHIP_NODE_NAME
                 (writeComposeCmd (dockerComposeContentFrom buf domain swarmManagerIp)),
               .ssh MOTHERSHIP_NODE_NAME composeUpCmd,
               .ssh MOTHERSHIP_NODE_NAME migrateCmd,
               .ssh MOTHERSHIP_NODE_NAME seedCmd]
            let s2 := runSeq env seg2
            let t5 := t4 ++ s2.1
            match s2.2 with
            | some e => (t5, .crashed e)
            | none => (t5, .completed (dnsTable swarmManagerIp mothershipIp))

/-- The call sequence the claims expect of a fully successful run, with
`rawIp` the (untrimmed) answer of the swarm IP read. -/
def expectedHappyTrace (accessToken domain : String) (buf : List Nat) (rawIp : String) :
    List ExtCall :=
  let ip := rawIp.trim
  [.createMachine MOTHERSHIP_NODE_NAME accessToken,
   .inspectIp MOTHERSHIP_NODE_NAME,
   .ssh MOTHERSHIP_NODE_NAME installComposeCurlCmd,
   .ssh MOTHERSHIP_NODE_NAME installComposeChmodCmd,
   .ssh MOTHERSHIP_NODE_NAME installMachineCmd,
   .ssh MOTHERSHIP_NODE_NAME (createSwarmCmd accessToken),
   .ssh MOTHERSHIP_NODE_NAME swarmIpCmd,
   .ssh MOTHERSHIP_NODE_NAME (swarmInitCmd ip),
   .ssh MOTHERSHIP_NODE_NAME createNetworkCmd,
   .ssh MOTHERSHIP_NODE_NAME createListenerCmd,
   .ssh MOTHERSHIP_NODE_NAME createProxyCmd,
   .ssh MOTHERSHIP_NODE_NAME (writeComposeCmd (dockerComposeContentFrom buf domain ip)),
   .ssh MOTHERSHIP_NODE_NAME composeUpCmd,
   .ssh MOTHERSHIP_NODE_NAME migrateCmd,
   .ssh MOTHERSHIP_NODE_NAME seedCmd]

/-- The call sequence of a run whose host A creation fails on every
attempt: five creation attempts interleaved with four local cleanup
commands, and nothing else. -/
def createAFailTrace (accessToken : String) : List ExtCall :=
  [.createMachine MOTHERSHIP_NODE_NAME accessToken,
   .spawnSyncCmd rmMothershipCmd,
   .createMachine MOTHERSHIP_NODE_NAME accessToken,
   .spawnSyncCmd rmMothershipCmd,
   .createMachine MOTHERSHIP_NODE_NAME accessToken,
   .spawnSyncCmd rmMothershipCmd,
   .createMachine MOTHERSHIP_NODE_NAME accessToken,
   .spawnSyncCmd rmMothershipCmd,
   .createMachine MOTHERSHIP_NODE_NAME accessToken]

/-- Modelled from the spec: POSIX shell append redirection, the missing
behaviour of the remote host's shell executing `echo "payload" >> file`.
`echo` writes its argument followed by a newline, and `>>` appends to the
file's existing contents without truncating (creating the file empty if
absent). -/
def shellEchoAppend (fileContents payload : String) : String :=
  fileContents ++ payload ++ "\n"

/-- Example action for witnesses: fails on attempts 1 and 2, succeeds with
42 on attempt 3. -/
def fnSucceeds3 : Nat → Except Nat Nat :=
  fun i => if i < 3 then .error i else .ok 42

/-- Example action for witnesses: fails on every attempt, with the attempt
index as the error. -/
def fnFailAlways : Nat → Except Nat Nat :=
  fun i => .error i

/-- Example action for witnesses: fails on attempt 1, succeeds with 7
afterwards. -/
def fnFailOnce : Nat → Except Nat Nat :=
  fun i => if i = 1 then .error 0 else .ok 7

/-- Environment for witnesses: every external call succeeds with "". -/
def envAllOk : ExtCall → Except String String :=
  fun _ => .ok ""

/-- Environment for witnesses: creating host A always fails, everything
else succeeds. -/
def envFailA : ExtCall → Except String String :=
  fun c =>
    match c with
    | .createMachine _ _ => .error "boom"
    | _ => .ok ""

/-- Environment for witnesses: the swarm manager creation command always
fails, everything else succeeds. -/
def envFailB : ExtCall → Except String String :=
  fun c =>
    if c = ExtCall.ssh MOTHERSHIP_NODE_NAME (createSwarmCmd "tok") then .error "boom"
    else .ok ""

/-- `envFailB` with the swarm compensation command additionally failing;
used to witness that compensation outcomes are ignored. -/
def envFailBBadComp : ExtCall → Except String String :=
  fun c =>
    if c = ExtCall.ssh MOTHERSHIP_NODE_NAME rmSwarmCmd then .error "rm also failed"
    else envFailB c

/-! ### Step lemmas for the retry combinator -/

/-- The attempt succeeds: the loop resolves with its value after one action
invocation and no callback invocation. -/
theorem retryAux_ok {ε α : Type} (fn : Nat → Except ε α) (cb : Option (ε → Bool))
    (n : Int) (a : Nat) (v : α) (hfn : fn a = .ok v) :
    retryAux fn cb n a = (some (.ok v), 1, 0) := by
  rw [retryAux.eq_def, hfn]

/-- The attempt fails with the exhaustion check satisfied: the loop rejects
with that error; the callback is not invoked. -/
theorem retryAux_err_last {ε α : Type} (fn : Nat → Except ε α) (cb : Option (ε → Bool))
    (n : Int) (a : Nat) (e : ε) (hfn : fn a = .error e) (hge : (a : Int) ≥ n) :
    retryAux fn cb n a = (some (.error e), 1, 0) := by
  rw [retryAux.eq_def, hfn]
  simp [hge]

/-- A non-final failure with no callback supplied: retry immediately. -/
theorem retryAux_err_none {ε α : Type} (fn : Nat → Except ε α)
    (n : Int) (a : Nat) (e : ε) (hfn : fn a = .error e) (hlt : ¬(a : Int) ≥ n) :
    retryAux fn none n a =
      ((retryAux fn none n (a + 1)).1,
       (retryAux fn none n (a + 1)).2.1 + 1,
       (retryAux fn none n (a + 1)).2.2) := by
  rw [retryAux.eq_def, hfn]
  simp [hlt]

/-- A non-final failure with a callback that returns normally: the callback
is invoked, then the action is retried. -/
theorem retryAux_err_cb {ε α : Type} (fn : Nat → Except ε α) (f : ε → Bool)
    (n : Int) (a : Nat) (e : ε) (hfn : fn a = .error e) (hlt : ¬(a : Int) ≥ n)
    (hcb : f e = true) :
    retryAux fn (some f) n a =
      ((retryAux fn (some f) n (a + 1)).1,
       (retryAux fn (some f) n (a + 1)).2.1 + 1,
       (retryAux fn (some f) n (a + 1)).2.2 + 1) := by
  rw [retryAux.eq_def, hfn]
  simp [hlt, hcb]

/-- A non-final failure whose callback throws synchronously: the loop never
re-invokes the action and the promise never settles. -/
theorem retryAux_err_cbthrow {ε α : Type} (fn : Nat → Except ε α) (f : ε → Bool)
    (n : Int) (a : Nat) (e : ε) (hfn : fn a = .error e) (hlt : ¬(a : Int) ≥ n)
    (hcb : f e = false) :
    retryAux fn (some f) n a = (none, 1, 1) := by
  rw [retryAux.eq_def, hfn]
  simp [hlt, hcb]

/-- Counting behaviour of the loop from attempt `a` when the action fails
on every attempt before `k` and succeeds at `k ≤ n`, with a callback that
always returns normally. -/
theorem retryAux_succeeds_from {ε α : Type} (fn : Nat → Except ε α) (err : Nat → ε)
    (f : ε → Bool) (v : α) (k : Nat) (n : Int)
    (hkn : (k : Int) ≤ n)
    (hfail : ∀ i, 1 ≤ i → i < k → fn i = .error (err i))
    (hsucc : fn k = .ok v)
    (hf : ∀ e, f e = true) :
    ∀ a, 1 ≤ a → a ≤ k →
      retryAux fn (some f) n a = (some (.ok v), k - a + 1, k - a) := by
  intro a ha1 hak
  rcases Nat.eq_or_lt_of_le hak with heq | hlt
  · subst heq
    rw [retryAux_ok fn (some f) n a v hsucc]
    simp
  · have hfa : fn a = .error (err a) := hfail a ha1 hlt
    have hlt2 : ¬(a : Int) ≥ n := by
      omega
    rw [retryAux_err_cb fn f n a (err a) hfa hlt2 (hf (err a)),
        retryAux_succeeds_from fn err f v k n hkn hfail hsucc hf (a + 1) (by omega) (by omega)]
    have h1 : k - (a + 1) + 1 + 1 = k - a + 1 := by omega
    have h2 : k - (a + 1) + 1 = k - a := by omega
    simp [h1, h2]
termination_by a => k - a
decreasing_by
  omega

/-- Counting behaviour of the loop from attempt `a` when the action fails
on every attempt up to and including `n`, with a callback that always
returns normally. -/
theorem retryAux_exhausts_from {ε α : Type} (fn : Nat → Except ε α) (err : Nat → ε)
    (f : ε → Bool) (n : Nat)
    (hfail : ∀ i, 1 ≤ i → i ≤ n → fn i = .error (err i))
    (hf : ∀ e, f e = true) :
    ∀ a, 1 ≤ a → a ≤ n →
      retryAux fn (some f) (n : Int) a = (some (.error (err n)), n - a + 1, n - a) := by
  intro a ha1 han
  rcases Nat.eq_or_lt_of_le han with heq | hlt
  · subst heq
    rw [retryAux_err_last fn (some f) (a : Int) a (err a) (hfail a ha1 han) (by omega)]
    simp
  · have hfa : fn a = .error (err a) := hfail a ha1 (by omega)
    have hlt2 : ¬(a : Int) ≥ (n : Int) := by
      omega
    rw [retryAux_err_cb fn f (n : Int) a (err a) hfa hlt2 (hf (err a)),
        retryAux_exhausts_from fn err f n hfail hf (a + 1) (by omega) (by omega)]
    have h1 : n - (a + 1) + 1 + 1 = n - a + 1 := by omega
    have h2 : n - (a + 1) + 1 = n - a := by omega
    simp [h1, h2]
termination_by a => n - a
decreasing_by
  omega

/-- Claim C2: for every `maxAttempts = n ≥ 1` and every action that fails
on attempts `1..k-1` and succeeds on attempt `k ≤ n` (with a supplied
failure callback that returns normally), `retryPromiseIfNeeded` resolves
with the action's success value, invokes the action exactly `k` times and
the failure callback exactly `k - 1` times; in particular no further
attempt occurs after the success, and `k = 1` gives one action invocation
and zero callback invocations. -/
theorem retry_success_at_k {ε α : Type} (fn : Nat → Except ε α) (err : Nat → ε)
    (f : ε → Bool) (v : α) (k : Nat) (n : Int)
    (hk : 1 ≤ k) (hkn : (k : Int) ≤ n)
    (hfail : ∀ i, 1 ≤ i → i < k → fn i = .error (err i))
    (hsucc : fn k = .ok v)
    (hf : ∀ e, f e = true) :
    retryPromiseIfNeeded fn (some f) n = (some (.ok v), k, k - 1) := by
  rw [retryPromiseIfNeeded,
      retryAux_succeeds_from fn err f v k n hkn hfail hsucc hf 1 le_rfl hk]
  have h1 : k - 1 + 1 = k := by omega
  simp [h1]

/-- Witness for C2: the concrete action failing twice then succeeding with
42 on attempt 3 of 5 resolves with 42 after exactly 3 action invocations
and 2 callback invocations. -/
theorem retry_success_at_k_witness :
    retryPromiseIfNeeded fnSucceeds3 (some fun _ => true) 5 = (some (.ok 42), 3, 2) :=
  retry_success_at_k fnSucceeds3 (fun i => i) (fun _ => true) 42 3 5
    (by omega) (by norm_num)
    (by
      intro i h1 h2
      simp [fnSucceeds3, h2])
    (by simp [fnSucceeds3])
    (fun _ => rfl)

/-- Claim C3: for every `maxAttempts = n ≥ 1` and every action that fails
on all `n` attempts (with a supplied failure callback that returns
normally), `retryPromiseIfNeeded` rejects with the error of the final,
`n`-th attempt, invokes the action exactly `n` times, and invokes the
failure callback exactly `n - 1` times — never for the exhausting
attempt. -/
theorem retry_exhaustion {ε α : Type} (fn : Nat → Except ε α) (err : Nat → ε)
    (f : ε → Bool) (n : Nat)
    (hn : 1 ≤ n)
    (hfail : ∀ i, 1 ≤ i → i ≤ n → fn i = .error (err i))
    (hf : ∀ e, f e = true) :
    retryPromiseIfNeeded fn (some f) (n : Int) = (some (.error (err n)), n, n - 1) := by
  rw [retryPromiseIfNeeded,
      retryAux_exhausts_from fn err f n hfail hf 1 le_rfl hn]
  have h1 : n - 1 + 1 = n := by omega
  simp [h1]

/-- Witness for C3: the always-failing concrete action under
`maxAttempts = 5` rejects with the fifth error after exactly 5 action
invocations and 4 callback invocations. -/
theorem retry_exhaustion_witness :
    retryPromiseIfNeeded fnFailAlways (some fun _ => true) 5 = (some (.error 5), 5, 4) :=
  retry_exhaustion fnFailAlways (fun i => i) (fun _ => true) 5
    (by omega)
    (fun i _ _ => rfl)
    (fun _ => rfl)

/-! ### Event-trace lemmas for the retry combinator -/

/-- Every execution of the loop opens by starting the current attempt. -/
theorem retryEvents_head {ε α : Type} (fn : Nat → Except ε α) (cb : Option (ε → Bool))
    (n : Int) (a : Nat) :
    ∃ rest, retryEvents fn cb n a = .attemptStart a :: rest := by
  rw [retryEvents.eq_def]
  cases hfn : fn a with
  | ok v => exact ⟨_, rfl⟩
  | error e =>
    dsimp only
    by_cases hge : (a : Int) ≥ n
    · rw [dif_pos hge]
      exact ⟨_, rfl⟩
    · rw [dif_neg hge]
      cases cb with
      | none => exact ⟨_, rfl⟩
      | some f =>
        dsimp only
        by_cases hcb : f e
        · rw [if_pos hcb]
          exact ⟨_, rfl⟩
        · rw [if_neg hcb]
          exact ⟨_, rfl⟩

/-- Event trace of a non-final failed attempt whose callback returns
normally: the failure is observed, the callback runs, then the next
attempt's events follow. -/
theorem retryEvents_err_cb {ε α : Type} (fn : Nat → Except ε α) (f : ε → Bool)
    (n : Int) (a : Nat) (e : ε) (hfn : fn a = .error e) (hlt : ¬(a : Int) ≥ n)
    (hcb : f e = true) :
    retryEvents fn (some f) n a =
      .attemptStart a :: .attemptFail a e :: .callbackRun a e ::
        retryEvents fn (some f) n (a + 1) := by
  rw [retryEvents.eq_def, hfn]
  simp [hlt, hcb]

/-- From any attempt `a ≤ i`, if the action fails on attempts `1..i` and
`i` is not the final allowed attempt, the event trace contains the
contiguous run: failure of attempt `i` observed, callback invoked with that
error, attempt `i + 1` started. -/
theorem retryEvents_between_from {ε α : Type} (fn : Nat → Except ε α) (err : Nat → ε)
    (f : ε → Bool) (n : Int) (i : Nat)
    (hi1 : 1 ≤ i) (hin : (i : Int) < n)
    (hfail : ∀ j, 1 ≤ j → j ≤ i → fn j = .error (err j))
    (hf : ∀ e, f e = true) :
    ∀ a, 1 ≤ a → a ≤ i →
      ∃ l₁ l₂, retryEvents fn (some f) n a =
        l₁ ++ [.attemptFail i (err i), .callbackRun i (err i), .attemptStart (i + 1)] ++ l₂ := by
  intro a ha1 hai
  rcases Nat.eq_or_lt_of_le hai with heq | hlt
  · subst heq
    obtain ⟨rest, hrest⟩ := retryEvents_head fn (some f) n (a + 1)
    rw [retryEvents_err_cb fn f n a (err a) (hfail a ha1 le_rfl) (by omega) (hf (err a)),
        hrest]
    exact ⟨[.attemptStart a], rest, by simp⟩
  · obtain ⟨l₁, l₂, hl⟩ :=
      retryEvents_between_from fn err f n i hi1 hin hfail hf (a + 1) (by omega) hlt
    rw [retryEvents_err_cb fn f n a (err a) (hfail a ha1 (by omega)) (by omega) (hf (err a)),
        hl]
    exact ⟨.attemptStart a :: .attemptFail a (err a) :: .callbackRun a (err a) :: l₁, l₂,
      by simp⟩
termination_by a => i - a
decreasing_by
  omega

/-- Claim C7: for every retry execution with a supplied failure callback
(that returns normally), on each non-final failed attempt `i` the
compensation callback is executed between attempts: in the event trace the
callback invocation (with the observed error of attempt `i`) occurs
immediately after attempt `i`'s failure is observed and immediately before
attempt `i + 1` starts; in particular attempt `i + 1` starts only after
attempt `i`'s failure is observed. -/
theorem callback_runs_between_attempts {ε α : Type} (fn : Nat → Except ε α) (err : Nat → ε)
    (f : ε → Bool) (n : Int) (i : Nat)
    (hi1 : 1 ≤ i) (hin : (i : Int) < n)
    (hfail : ∀ j, 1 ≤ j → j ≤ i → fn j = .error (err j))
    (hf : ∀ e, f e = true) :
    ∃ l₁ l₂, retryEvents fn (some f) n 1 =
      l₁ ++ [.attemptFail i (err i), .callbackRun i (err i), .attemptStart (i + 1)] ++ l₂ :=
  retryEvents_between_from fn err f n i hi1 hin hfail hf 1 le_rfl hi1

/-- Witness for C7: for the concrete action failing on attempts 1 and 2
under `maxAttempts = 5`, the trace contains the failure of attempt 2, then
the callback invocation, then the start of attempt 3, contiguously. -/
theorem callback_runs_between_attempts_witness :
    ∃ l₁ l₂, retryEvents fnSucceeds3 (some fun _ => true) 5 1 =
      l₁ ++ [.attemptFail 2 2, .callbackRun 2 2, .attemptStart 3] ++ l₂ :=
  callback_runs_between_attempts fnSucceeds3 (fun i => i) (fun _ => true) 5 2
    (by omega) (by norm_num)
    (by
      intro j h1 h2
      simp [fnSucceeds3]
      omega)
    (fun _ => rfl)

/-- Counterexample to claim C8 as stated: it is not true that for every
retry execution a failing compensation leaves the retry policy's result
unchanged.  `retryPromiseIfNeeded` does not catch callback errors (source
line 137 calls `failedAttemptCb(err)` bare inside the `.catch` handler),
so for the concrete action failing once and then succeeding with 7, a
callback that throws synchronously prevents any further attempt and the
promise never settles (result `none`, one action and one callback
invocation), whereas the same action with a normally-returning callback
settles with the success value 7 — the results differ. -/
theorem callback_crash_changes_result :
    retryPromiseIfNeeded fnFailOnce (some fun _ => false) 5 = (none, 1, 1) ∧
    retryPromiseIfNeeded fnFailOnce (some fun _ => true) 5 = (some (.ok 7), 2, 1) ∧
    (retryPromiseIfNeeded fnFailOnce (some fun _ => false) 5).1 ≠
      (retryPromiseIfNeeded fnFailOnce (some fun _ => true) 5).1 := by
  have h1 : retryPromiseIfNeeded fnFailOnce (some fun _ => false) 5 = (none, 1, 1) := by
    rw [retryPromiseIfNeeded,
        retryAux_err_cbthrow fnFailOnce (fun _ => false) 5 1 0 rfl (by norm_num) rfl]
  have h2 : retryPromiseIfNeeded fnFailOnce (some fun _ => true) 5 = (some (.ok 7), 2, 1) := by
    rw [retryPromiseIfNeeded,
        retryAux_err_cb fnFailOnce (fun _ => true) 5 1 0 rfl (by norm_num) rfl]
    norm_num
    rw [retryAux_ok fnFailOnce (some fun _ => true) 5 2 7 rfl]
    simp
  refine ⟨h1, h2, ?_⟩
  rw [h1, h2]
  simp

/-- Claim C9: for every `maxAttempts ≤ 1` — including 0 and negative
values — and every action failing on its first attempt, the combinator
still invokes the action exactly once and rejects with that first error
without ever invoking the failure callback: the 1-based attempt counter
already satisfies the exhaustion check `attempt >= maxTries` on the first
failure. -/
theorem low_max_tries_single_attempt {ε α : Type} (fn : Nat → Except ε α)
    (cb : Option (ε → Bool)) (n : Int) (e : ε)
    (hn : n ≤ 1) (hfn : fn 1 = .error e) :
    retryPromiseIfNeeded fn cb n = (some (.error e), 1, 0) := by
  rw [retryPromiseIfNeeded, retryAux_err_last fn cb n 1 e hfn (by omega)]

/-- Witness for C9: with `maxAttempts = -3` the always-failing action is
invoked exactly once, the first error is rejected, and the callback never
runs. -/
theorem low_max_tries_single_attempt_witness :
    retryPromiseIfNeeded fnFailAlways (some fun _ => true) (-3) = (some (.error 1), 1, 0) :=
  low_max_tries_single_attempt fnFailAlways (some fun _ => true) (-3) 1
    (by norm_num) rfl

/-! ### Config template: hex secret lemmas -/

/-- The hex digit map is injective on nibbles. -/
theorem hexDigit_inj : ∀ m, m < 16 → ∀ n, n < 16 → hexDigit m = hexDigit n → m = n := by
  decide

/-- A byte is recovered from its two hex digits. -/
theorem byte_of_hexDigits_inj (a c : Nat) (ha : a < 256) (hc : c < 256)
    (h1 : hexDigit (a / 16) = hexDigit (c / 16))
    (h2 : hexDigit (a % 16) = hexDigit (c % 16)) : a = c := by
  have d1 := hexDigit_inj (a / 16) (by omega) (c / 16) (by omega) h1
  have d2 := hexDigit_inj (a % 16) (by omega) (c % 16) (by omega) h2
  omega

/-- Hex encoding is injective on byte lists. -/
theorem bytesToHexChars_inj : ∀ xs ys : List Nat, (∀ b ∈ xs, b < 256) → (∀ b ∈ ys, b < 256) →
    bytesToHexChars xs = bytesToHexChars ys → xs = ys := by
  intro xs
  induction xs with
  | nil =>
    intro ys _ _ h
    cases ys with
    | nil => rfl
    | cons c cs => simp [bytesToHexChars] at h
  | cons a as ih =>
    intro ys hx hy h
    cases ys with
    | nil => simp [bytesToHexChars] at h
    | cons c cs =>
      simp only [bytesToHexChars, List.cons.injEq] at h
      obtain ⟨h1, h2, h3⟩ := h
      have ha : a < 256 := hx a (by simp)
      have hc : c < 256 := hy c (by simp)
      have hac : a = c := byte_of_hexDigits_inj a c ha hc h1 h2
      subst hac
      rw [ih cs (fun b hb => hx b (by simp [hb])) (fun b hb => hy b (by simp [hb])) h3]

/-- Hex encoding yields two characters per byte. -/
theorem bytesToHexChars_length : ∀ bs : List Nat, (bytesToHexChars bs).length = 2 * bs.length := by
  intro bs
  induction bs with
  | nil => rfl
  | cons b bs ih =>
    simp only [bytesToHexChars, List.length_cons, ih]
    omega

/-- Claim C6: the rendered compose document factors as a fixed prefix, the
hex-encoded secret, and a suffix depending only on `(domain, peerAddress)`
— so two calls with identical `(domain, peerAddress)` produce documents
differing only in the embedded secret.  Each call hex-encodes a fresh
256-byte draw from `crypto.randomBytes` (a cryptographically strong
source), giving a 512-hex-digit secret, and the encoding is injective, so
distinct draws give distinct secrets and distinct documents. -/
theorem compose_template_secret (domain ip : String) (r₁ r₂ : List Nat)
    (hl1 : r₁.length = 256) (_hl2 : r₂.length = 256)
    (hb1 : ∀ b ∈ r₁, b < 256) (hb2 : ∀ b ∈ r₂, b < 256) :
    dockerComposeContentFrom r₁ domain ip =
      composePre ++ bytesToHex r₁ ++ composePost domain ip ∧
    dockerComposeContentFrom r₂ domain ip =
      composePre ++ bytesToHex r₂ ++ composePost domain ip ∧
    (bytesToHex r₁).length = 512 ∧
    (r₁ ≠ r₂ → bytesToHex r₁ ≠ bytesToHex r₂ ∧
      dockerComposeContentFrom r₁ domain ip ≠ dockerComposeContentFrom r₂ domain ip) := by
  refine ⟨rfl, rfl, ?_, ?_⟩
  · show (bytesToHexChars r₁).length = 512
    rw [bytesToHexChars_length, hl1]
  · intro hne
    have hsec : bytesToHex r₁ ≠ bytesToHex r₂ := by
      intro h
      apply hne
      apply bytesToHexChars_inj r₁ r₂ hb1 hb2
      exact congrArg String.data h
    refine ⟨hsec, ?_⟩
    intro h
    apply hsec
    have h2 : composePre.data ++ ((bytesToHex r₁).data ++ (composePost domain ip).data)
        = composePre.data ++ ((bytesToHex r₂).data ++ (composePost domain ip).data) := by
      have hd := congrArg String.data h
      simpa [dockerComposeContentFrom, String.data_append, List.append_assoc] using hd
    have h3 := List.append_cancel_left h2
    have h4 := List.append_cancel_right h3
    exact congrArg String.mk h4

/-- Witness for C6: the all-zero 256-byte draw gives a 512-character
secret, and a draw differing in the first byte gives a different secret
and a different rendered document. -/
theorem compose_template_secret_witness :
    (bytesToHex (List.replicate 256 0)).length = 512 ∧
    bytesToHex (List.replicate 256 0) ≠ bytesToHex (1 :: List.replicate 255 0) ∧
    dockerComposeContentFrom (List.replicate 256 0) "example.com" "1.2.3.4" ≠
      dockerComposeContentFrom (1 :: List.replicate 255 0) "example.com" "1.2.3.4" := by
  have h := compose_template_secret "example.com" "1.2.3.4"
    (List.replicate 256 0) (1 :: List.replicate 255 0)
    (by rw [List.length_replicate])
    (by rw [List.length_cons, List.length_replicate])
    (by
      intro b hb
      rw [List.eq_of_mem_replicate hb]
      omega)
    (by
      intro b hb
      rcases List.mem_cons.mp hb with hb1 | hb1
      · omega
      · rw [List.eq_of_mem_replicate hb1]
        omega)
  have hne : (List.replicate 256 0 : List Nat) ≠ 1 :: List.replicate 255 0 := by
    intro hx
    rw [show (256 : Nat) = 255 + 1 from rfl, List.replicate_succ] at hx
    have h0 := congrArg List.head? hx
    rw [List.head?_cons, List.head?_cons] at h0
    injection h0 with h0
    omega
  exact ⟨h.2.2.1, (h.2.2.2 hne).1, (h.2.2.2 hne).2⟩

/-! ### String helpers for discriminating command strings -/

/-- Strings of different lengths are different. -/
theorem str_ne_of_length_ne (s t : String) (h : s.length ≠ t.length) : s ≠ t :=
  fun he => h (congrArg String.length he)

/-- Length of a string concatenation. -/
theorem str_length_append (s t : String) : (s ++ t).length = s.length + t.length := by
  show (s ++ t).data.length = s.data.length + t.data.length
  rw [String.data_append, List.length_append]

/-- The swarm-create command (71 fixed characters plus the token and the
node name) is never the 37-character swarm-destroy command. -/
theorem createSwarmCmd_ne_rmSwarmCmd (tok : String) : createSwarmCmd tok ≠ rmSwarmCmd := by
  apply str_ne_of_length_ne
  rw [createSwarmCmd, str_length_append, str_length_append, str_length_append]
  have h1 : ("docker-machine create --driver digitalocean --digitalocean-access-token " : String).length = 72 := by decide
  have h2 : (" " : String).length = 1 := by decide
  have h3 : SWARM_MANAGER_NODE_NAME.length = 16 := by decide
  have h4 : rmSwarmCmd.length = 37 := by decide
  rw [h1, h2, h3, h4]
  omega

/-- The swarm-init command is never the swarm-destroy command. -/
theorem swarmInitCmd_ne_rmSwarmCmd (ip : String) : swarmInitCmd ip ≠ rmSwarmCmd := by
  apply str_ne_of_length_ne
  rw [swarmInitCmd, str_length_append, str_length_append]
  have h1 : swarmEnvCmd.length = 44 := by decide
  have h2 : ("docker swarm init --advertise-addr " : String).length = 35 := by decide
  have h4 : rmSwarmCmd.length = 37 := by decide
  rw [h1, h2, h4]
  omega

/-- Strings whose first characters differ are different. -/
theorem str_ne_of_head_ne (s t : String) (c d : Char)
    (hs : s.data.head? = some c) (ht : t.data.head? = some d) (hcd : c ≠ d) : s ≠ t := by
  intro he
  rw [he, ht] at hs
  injection hs with h
  exact hcd h.symm

/-- The head character of a concatenation whose left part is nonempty. -/
theorem str_head_append (s t : String) (c : Char) (h : s.data.head? = some c) :
    (s ++ t).data.head? = some c := by
  rw [String.data_append]
  cases hd : s.data with
  | nil => rw [hd] at h; cases h
  | cons x xs =>
    rw [hd] at h
    injection h with h
    simp [h]

/-- The descriptor-write command starts with `echo`, so it is never the
swarm-destroy command (which starts with `docker-machine`). -/
theorem writeComposeCmd_ne_rmSwarmCmd (c : String) : writeComposeCmd c ≠ rmSwarmCmd := by
  have hh : (writeComposeCmd c).data.head? = some (Char.ofNat 101) := by
    rw [writeComposeCmd]
    apply str_head_append
    apply str_head_append
    decide
  exact str_ne_of_head_ne (writeComposeCmd c) rmSwarmCmd (Char.ofNat 101) (Char.ofNat 100)
    hh (by decide) (by decide)

/-! ### Step lemmas for the orchestrator's retried steps -/

/-- A successful action: one call, success. -/
theorem retryCallsDet_ok (env : ExtCall → Except String String) (act comp : ExtCall)
    (n : Int) (a : Nat) (v : String) (h : env act = .ok v) :
    retryCallsDet env act comp n a = ([act], .ok v) := by
  rw [retryCallsDet.eq_def, h]

/-- A failing action at the exhaustion check: one call, final error. -/
theorem retryCallsDet_err_last (env : ExtCall → Except String String) (act comp : ExtCall)
    (n : Int) (a : Nat) (e : String) (h : env act = .error e) (hge : (a : Int) ≥ n) :
    retryCallsDet env act comp n a = ([act], .error e) := by
  rw [retryCallsDet.eq_def, h]
  simp [hge]

/-- A failing action before exhaustion: the action call, the compensation
call, then the rest of the retry loop. -/
theorem retryCallsDet_err_step (env : ExtCall → Except String String) (act comp : ExtCall)
    (n : Int) (a : Nat) (e : String) (h : env act = .error e) (hlt : ¬(a : Int) ≥ n) :
    retryCallsDet env act comp n a =
      (act :: comp :: (retryCallsDet env act comp n (a + 1)).1,
       (retryCallsDet env act comp n (a + 1)).2) := by
  rw [retryCallsDet.eq_def, h]
  simp [hlt]

/-- Five failing attempts under `maxTries = 5`: five action calls
interleaved with four compensation calls, rejecting with the error. -/
theorem retryCallsDet_fail_five (env : ExtCall → Except String String) (act comp : ExtCall)
    (e : String) (h : env act = .error e) :
    retryCallsDet env act comp 5 1 =
      ([act, comp, act, comp, act, comp, act, comp, act], .error e) := by
  have h5 := retryCallsDet_err_last env act comp 5 5 e h (by norm_num)
  have h4 : retryCallsDet env act comp 5 4 = ([act, comp, act], .error e) := by
    rw [retryCallsDet_err_step env act comp 5 4 e h (by norm_num),
        show (4 : Nat) + 1 = 5 from rfl, h5]
  have h3 : retryCallsDet env act comp 5 3 = ([act, comp, act, comp, act], .error e) := by
    rw [retryCallsDet_err_step env act comp 5 3 e h (by norm_num),
        show (3 : Nat) + 1 = 4 from rfl, h4]
  have h2 : retryCallsDet env act comp 5 2 =
      ([act, comp, act, comp, act, comp, act], .error e) := by
    rw [retryCallsDet_err_step env act comp 5 2 e h (by norm_num),
        show (2 : Nat) + 1 = 3 from rfl, h3]
  rw [retryCallsDet_err_step env act comp 5 1 e h (by norm_num),
      show (1 : Nat) + 1 = 2 from rfl, h2]

/-- Every call a retried step issues is its action or its compensation. -/
theorem retryCallsDet_mem (env : ExtCall → Except String String) (act comp : ExtCall)
    (n : Int) (a : Nat) (c : ExtCall)
    (hc : c ∈ (retryCallsDet env act comp n a).1) : c = act ∨ c = comp := by
  cases h : env act with
  | ok v =>
    rw [retryCallsDet_ok env act comp n a v h] at hc
    simp at hc
    exact Or.inl hc
  | error e =>
    by_cases hge : (a : Int) ≥ n
    · rw [retryCallsDet_err_last env act comp n a e h hge] at hc
      simp at hc
      exact Or.inl hc
    · rw [retryCallsDet_err_step env act comp n a e h hge] at hc
      simp only [List.mem_cons] at hc
      rcases hc with hc | hc | hc
      · exact Or.inl hc
      · exact Or.inr hc
      · exact retryCallsDet_mem env act comp n (a + 1) c hc
termination_by (n - (a : Int)).toNat
decreasing_by
  omega

/-- A retried step only consults the environment at its action call, so it
is unchanged when two environments agree there (the compensation's outcome
is never inspected). -/
theorem retryCallsDet_congr (env env2 : ExtCall → Except String String) (act comp : ExtCall)
    (n : Int) (a : Nat) (h : env act = env2 act) :
    retryCallsDet env act comp n a = retryCallsDet env2 act comp n a := by
  cases h2 : env2 act with
  | ok v =>
    rw [retryCallsDet_ok env act comp n a v (h.trans h2),
        retryCallsDet_ok env2 act comp n a v h2]
  | error e =>
    by_cases hge : (a : Int) ≥ n
    · rw [retryCallsDet_err_last env act comp n a e (h.trans h2) hge,
          retryCallsDet_err_last env2 act comp n a e h2 hge]
    · rw [retryCallsDet_err_step env act comp n a e (h.trans h2) hge,
          retryCallsDet_err_step env2 act comp n a e h2 hge,
          retryCallsDet_congr env env2 act comp n (a + 1) h]
termination_by (n - (a : Int)).toNat
decreasing_by
  omega

/-! ### Lemmas for sequentially awaited call blocks -/

/-- A block of awaited calls under an all-succeeding environment issues
exactly its calls in order and reports no error. -/
theorem runSeq_allOk (f : ExtCall → String) (cs : List ExtCall) :
    runSeq (fun c => .ok (f c)) cs = (cs, none) := by
  induction cs with
  | nil => rfl
  | cons c rest ih => simp [runSeq, ih]

/-- A block of awaited calls whose environment answers every listed call
with a success issues exactly its calls in order and reports no error. -/
theorem runSeq_ok (env : ExtCall → Except String String) (f : ExtCall → String)
    (cs : List ExtCall) (h : ∀ c ∈ cs, env c = .ok (f c)) :
    runSeq env cs = (cs, none) := by
  induction cs with
  | nil => rfl
  | cons d rest ih =>
    rw [runSeq, h d (by simp)]
    dsimp only
    rw [ih (fun c hc => h c (List.mem_cons_of_mem d hc))]

/-- Every call a sequential block issues is one of its declared calls. -/
theorem runSeq_mem (env : ExtCall → Except String String) (cs : List ExtCall) (c : ExtCall)
    (hc : c ∈ (runSeq env cs).1) : c ∈ cs := by
  induction cs with
  | nil => simp [runSeq] at hc
  | cons d rest ih =>
    rw [runSeq] at hc
    cases h : env d with
    | error e =>
      rw [h] at hc
      simp at hc
      simp [hc]
    | ok v =>
      rw [h] at hc
      simp only [List.mem_cons] at hc
      rcases hc with hc | hc
      · simp [hc]
      · exact List.mem_cons_of_mem d (ih hc)

/-- A sequential block behaves identically under environments that agree on
its calls. -/
theorem runSeq_congr (env env2 : ExtCall → Except String String) (cs : List ExtCall)
    (h : ∀ c ∈ cs, env c = env2 c) :
    runSeq env cs = runSeq env2 cs := by
  induction cs with
  | nil => rfl
  | cons d rest ih =>
    rw [runSeq, runSeq, h d (by simp), ih (fun c hc => h c (List.mem_cons_of_mem d hc))]

/-! ### The full-workflow evaluation -/

/-- Evaluation of `mainRun` under an environment in which every call
succeeds (answers given by `f`): the trace is exactly the expected call
order and the run completes with the DNS table. -/
theorem mainRun_allOk (env : ExtCall → Except String String) (f : ExtCall → String)
    (hok : ∀ c, env c = .ok (f c)) (tok dom : String) (buf : List Nat) :
    mainRun env tok dom buf =
      (expectedHappyTrace tok dom buf (f (.ssh MOTHERSHIP_NODE_NAME swarmIpCmd)),
       .completed (dnsTable ((f (.ssh MOTHERSHIP_NODE_NAME swarmIpCmd)).trim)
         (f (.inspectIp MOTHERSHIP_NODE_NAME)))) := by
  simp only [mainRun]
  rw [retryCallsDet_ok env (ExtCall.createMachine MOTHERSHIP_NODE_NAME tok)
        (ExtCall.spawnSyncCmd rmMothershipCmd) 5 1
        (f (ExtCall.createMachine MOTHERSHIP_NODE_NAME tok)) (hok _),
      retryCallsDet_ok env (ExtCall.ssh MOTHERSHIP_NODE_NAME (createSwarmCmd tok))
        (ExtCall.ssh MOTHERSHIP_NODE_NAME rmSwarmCmd) 5 1
        (f (ExtCall.ssh MOTHERSHIP_NODE_NAME (createSwarmCmd tok))) (hok _),
      hok (ExtCall.inspectIp MOTHERSHIP_NODE_NAME),
      hok (ExtCall.ssh MOTHERSHIP_NODE_NAME swarmIpCmd),
      runSeq_ok env f
        [ExtCall.ssh MOTHERSHIP_NODE_NAME installComposeCurlCmd,
         ExtCall.ssh MOTHERSHIP_NODE_NAME installComposeChmodCmd,
         ExtCall.ssh MOTHERSHIP_NODE_NAME installMachineCmd]
        (fun c _ => hok c)]
  dsimp only
  rw [runSeq_ok env f
        [ExtCall.ssh MOTHERSHIP_NODE_NAME
           (swarmInitCmd (f (ExtCall.ssh MOTHERSHIP_NODE_NAME swarmIpCmd)).trim),
         ExtCall.ssh MOTHERSHIP_NODE_NAME createNetworkCmd,
         ExtCall.ssh MOTHERSHIP_NODE_NAME createListenerCmd,
         ExtCall.ssh MOTHERSHIP_NODE_NAME createProxyCmd,
         ExtCall.ssh MOTHERSHIP_NODE_NAME
           (writeComposeCmd (dockerComposeContentFrom buf dom
             (f (ExtCall.ssh MOTHERSHIP_NODE_NAME swarmIpCmd)).trim)),
         ExtCall.ssh MOTHERSHIP_NODE_NAME composeUpCmd,
         ExtCall.ssh MOTHERSHIP_NODE_NAME migrateCmd,
         ExtCall.ssh MOTHERSHIP_NODE_NAME seedCmd]
        (fun c _ => hok c)]
  simp [expectedHappyTrace]

/-- Claim C1: under a mock environment in which every external call
succeeds (answers given by `f`), the full workflow issues its calls in
exactly the order: create host A, inspect host A's address, install
docker-compose (two commands) then docker-machine on A, create host B via
ssh on A, read host B's address via ssh on A, init the swarm, create the
overlay network, deploy the listener service, deploy the proxy service,
write the deployment descriptor, start the stack, migrate, seed — and
completes with the DNS table.  The sequential interpreter only issues a
call after every earlier awaited call has succeeded, so no step begins
before its predecessors completed. -/
theorem workflow_call_order (f : ExtCall → String) (tok dom : String) (buf : List Nat) :
    mainRun (fun c => .ok (f c)) tok dom buf =
      (expectedHappyTrace tok dom buf (f (.ssh MOTHERSHIP_NODE_NAME swarmIpCmd)),
       .completed (dnsTable ((f (.ssh MOTHERSHIP_NODE_NAME swarmIpCmd)).trim)
         (f (.inspectIp MOTHERSHIP_NODE_NAME)))) :=
  mainRun_allOk (fun c => .ok (f c)) f (fun _ => rfl) tok dom buf

/-- Claim C4: if creating host A fails on every one of its 5 attempts, the
workflow issues only the five creation attempts interleaved with the four
local cleanup commands — no call touching host B is ever issued — and it
exits reporting host A's creation step (the failed spinner label) together
with the retry-exhaustion message. -/
theorem createA_exhaustion_halts (env : ExtCall → Except String String) (tok dom : String)
    (buf : List Nat) (e : String)
    (h : env (ExtCall.createMachine MOTHERSHIP_NODE_NAME tok) = .error e) :
    mainRun env tok dom buf =
      (createAFailTrace tok, .exited createMothershipLabel createFailMsg) ∧
    ∀ c ∈ createAFailTrace tok,
      c = ExtCall.createMachine MOTHERSHIP_NODE_NAME tok ∨
      c = ExtCall.spawnSyncCmd rmMothershipCmd := by
  constructor
  · simp only [mainRun]
    rw [retryCallsDet_fail_five env (ExtCall.createMachine MOTHERSHIP_NODE_NAME tok)
          (ExtCall.spawnSyncCmd rmMothershipCmd) e h]
    simp [createAFailTrace]
  · intro c hc
    simp [createAFailTrace] at hc
    tauto

/-- Witness for C4: under the concrete environment that always fails
machine creation, the run exits at host A's creation step after exactly
the nine A-only calls. -/
theorem createA_exhaustion_halts_witness :
    mainRun envFailA "tok" "dom" [] =
      (createAFailTrace "tok", .exited createMothershipLabel createFailMsg) :=
  (createA_exhaustion_halts envFailA "tok" "dom" [] "boom" rfl).1

/-- Claim C5: in every run, every issued call is either a remote command
through ssh on host A, or one of the three direct/local operations that
only concern host A (its provider create, its provider inspect, its local
cleanup) — so every create/get-address/destroy operation on host B is
expressed as a remote command through a session on host A with the
provider's CLI as payload, never as a direct provider call; concretely,
the successful run issues host B's create and get-address as ssh payloads
on host A, and the failing-create run issues host B's destroy as an ssh
payload on host A. -/
theorem swarm_ops_only_via_session_on_A (env : ExtCall → Except String String)
    (tok dom : String) (buf : List Nat) :
    (∀ c ∈ (mainRun env tok dom buf).1,
      (∃ cmd, c = ExtCall.ssh MOTHERSHIP_NODE_NAME cmd) ∨
      c = ExtCall.createMachine MOTHERSHIP_NODE_NAME tok ∨
      c = ExtCall.inspectIp MOTHERSHIP_NODE_NAME ∨
      c = ExtCall.spawnSyncCmd rmMothershipCmd) ∧
    ExtCall.ssh MOTHERSHIP_NODE_NAME (createSwarmCmd "tok") ∈
      (mainRun envAllOk "tok" "dom" []).1 ∧
    ExtCall.ssh MOTHERSHIP_NODE_NAME swarmIpCmd ∈ (mainRun envAllOk "tok" "dom" []).1 ∧
    ExtCall.ssh MOTHERSHIP_NODE_NAME rmSwarmCmd ∈ (mainRun envFailB "tok" "dom" []).1 := by
  refine ⟨?_, ?_, ?_, ?_⟩
  · intro c hc
    simp only [mainRun] at hc
    cases hr1 : (retryCallsDet env (ExtCall.createMachine MOTHERSHIP_NODE_NAME tok)
        (ExtCall.spawnSyncCmd rmMothershipCmd) 5 1).2 with
    | error e1 =>
      rw [hr1] at hc
      dsimp only at hc
      rcases retryCallsDet_mem env _ _ 5 1 c hc with h | h
      · exact Or.inr (Or.inl h)
      · exact Or.inr (Or.inr (Or.inr h))
    | ok v1 =>
      rw [hr1] at hc
      dsimp only at hc
      cases hr2 : env (ExtCall.inspectIp MOTHERSHIP_NODE_NAME) with
      | error e2 =>
        rw [hr2] at hc
        dsimp only at hc
        rcases List.mem_append.mp hc with h | h
        · rcases retryCallsDet_mem env _ _ 5 1 c h with h | h
          · exact Or.inr (Or.inl h)
          · exact Or.inr (Or.inr (Or.inr h))
        · simp at h
          exact Or.inr (Or.inr (Or.inl h))
      | ok mip =>
        rw [hr2] at hc
        dsimp only at hc
        cases hs1 : (runSeq env
            [ExtCall.ssh MOTHERSHIP_NODE_NAME installComposeCurlCmd,
             ExtCall.ssh MOTHERSHIP_NODE_NAME installComposeChmodCmd,
             ExtCall.ssh MOTHERSHIP_NODE_NAME installMachineCmd]).2 with
        | some e3 =>
          rw [hs1] at hc
          dsimp only at hc
          rcases List.mem_append.mp hc with h | h
          · rcases List.mem_append.mp h with h | h
            · rcases retryCallsDet_mem env _ _ 5 1 c h with h | h
              · exact Or.inr (Or.inl h)
              · exact Or.inr (Or.inr (Or.inr h))
            · simp at h
              exact Or.inr (Or.inr (Or.inl h))
          · have h2 := runSeq_mem env _ c h
            simp at h2
            rcases h2 with h2 | h2 | h2 <;> exact Or.inl ⟨_, h2⟩
        | none =>
          rw [hs1] at hc
          dsimp only at hc
          cases hr3 : (retryCallsDet env
              (ExtCall.ssh MOTHERSHIP_NODE_NAME (createSwarmCmd tok))
              (ExtCall.ssh MOTHERSHIP_NODE_NAME rmSwarmCmd) 5 1).2 with
          | error e4 =>
            rw [hr3] at hc
            dsimp only at hc
            rcases List.mem_append.mp hc with h | h
            · rcases List.mem_append.mp h with h | h
              · rcases List.mem_append.mp h with h | h
                · rcases retryCallsDet_mem env _ _ 5 1 c h with h | h
                  · exact Or.inr (Or.inl h)
                  · exact Or.inr (Or.inr (Or.inr h))
                · simp at h
                  exact Or.inr (Or.inr (Or.inl h))
              · have h2 := runSeq_mem env _ c h
                simp at h2
                rcases h2 with h2 | h2 | h2 <;> exact Or.inl ⟨_, h2⟩
            · rcases retryCallsDet_mem env _ _ 5 1 c h with h | h
              · exact Or.inl ⟨_, h⟩
              · exact Or.inl ⟨_, h⟩
          | ok v4 =>
            rw [hr3] at hc
            dsimp only at hc
            cases hr4 : env (ExtCall.ssh MOTHERSHIP_NODE_NAME swarmIpCmd) with
            | error e5 =>
              rw [hr4] at hc
              dsimp only at hc
              rcases List.mem_append.mp hc with h | h
              · rcases List.mem_append.mp h with h | h
                · rcases List.mem_append.mp h with h | h
                  · rcases List.mem_append.mp h with h | h
                    · rcases retryCallsDet_mem env _ _ 5 1 c h with h | h
                      · exact Or.inr (Or.inl h)
                      · exact Or.inr (Or.inr (Or.inr h))
                    · simp at h
                      exact Or.inr (Or.inr (Or.inl h))
                  · have h2 := runSeq_mem env _ c h
                    simp at h2
                    rcases h2 with h2 | h2 | h2 <;> exact Or.inl ⟨_, h2⟩
                · rcases retryCallsDet_mem env _ _ 5 1 c h with h | h
                  · exact Or.inl ⟨_, h⟩
                  · exact Or.inl ⟨_, h⟩
              · simp at h
                exact Or.inl ⟨_, h⟩
            | ok rawIp =>
              rw [hr4] at hc
              dsimp only at hc
              cases hs2 : (runSeq env
                  [ExtCall.ssh MOTHERSHIP_NODE_NAME (swarmInitCmd rawIp.trim),
                   ExtCall.ssh MOTHERSHIP_NODE_NAME createNetworkCmd,
                   ExtCall.ssh MOTHERSHIP_NODE_NAME createListenerCmd,
                   ExtCall.ssh MOTHERSHIP_NODE_NAME createProxyCmd,
                   ExtCall.ssh MOTHERSHIP_NODE_NAME
                     (writeComposeCmd (dockerComposeContentFrom buf dom rawIp.trim)),
                   ExtCall.ssh MOTHERSHIP_NODE_NAME composeUpCmd,
                   ExtCall.ssh MOTHERSHIP_NODE_NAME migrateCmd,
                   ExtCall.ssh MOTHERSHIP_NODE_NAME seedCmd]).2 with
              | some e6 =>
                rw [hs2] at hc
                dsimp only at hc
                rcases List.mem_append.mp hc with h | h
                · rcases List.mem_append.mp h with h | h
                  · rcases List.mem_append.mp h with h | h
                    · rcases List.mem_append.mp h with h | h
                      · rcases List.mem_append.mp h with h | h
                        · rcases retryCallsDet_mem env _ _ 5 1 c h with h | h
                          · exact Or.inr (Or.inl h)
                          · exact Or.inr (Or.inr (Or.inr h))
                        · simp at h
                          exact Or.inr (Or.inr (Or.inl h))
                      · have h2 := runSeq_mem env _ c h
                        simp at h2
                        rcases h2 with h2 | h2 | h2 <;> exact Or.inl ⟨_, h2⟩
                    · rcases retryCallsDet_mem env _ _ 5 1 c h with h | h
                      · exact Or.inl ⟨_, h⟩
                      · exact Or.inl ⟨_, h⟩
                  · simp at h
                    exact Or.inl ⟨_, h⟩
                · have h2 := runSeq_mem env _ c h
                  simp at h2
                  rcases h2 with h2 | h2 | h2 | h2 | h2 | h2 | h2 | h2 <;> exact Or.inl ⟨_, h2⟩
              | none =>
                rw [hs2] at hc
                dsimp only at hc
                rcases List.mem_append.mp hc with h | h
                · rcases List.mem_append.mp h with h | h
                  · rcases List.mem_append.mp h with h | h
                    · rcases List.mem_append.mp h with h | h
                      · rcases List.mem_append.mp h with h | h
                        · rcases retryCallsDet_mem env _ _ 5 1 c h with h | h
                          · exact Or.inr (Or.inl h)
                          · exact Or.inr (Or.inr (Or.inr h))
                        · simp at h
                          exact Or.inr (Or.inr (Or.inl h))
                      · have h2 := runSeq_mem env _ c h
                        simp at h2
                        rcases h2 with h2 | h2 | h2 <;> exact Or.inl ⟨_, h2⟩
                    · rcases retryCallsDet_mem env _ _ 5 1 c h with h | h
                      · exact Or.inl ⟨_, h⟩
                      · exact Or.inl ⟨_, h⟩
                  · simp at h
                    exact Or.inl ⟨_, h⟩
                · have h2 := runSeq_mem env _ c h
                  simp at h2
                  rcases h2 with h2 | h2 | h2 | h2 | h2 | h2 | h2 | h2 <;> exact Or.inl ⟨_, h2⟩
  · rw [mainRun_allOk envAllOk (fun _ => "") (fun _ => rfl) "tok" "dom" []]
    simp [expectedHappyTrace]
  · rw [mainRun_allOk envAllOk (fun _ => "") (fun _ => rfl) "tok" "dom" []]
    simp [expectedHappyTrace]
  · simp only [mainRun]
    rw [retryCallsDet_ok envFailB (ExtCall.createMachine MOTHERSHIP_NODE_NAME "tok")
          (ExtCall.spawnSyncCmd rmMothershipCmd) 5 1 "" rfl]
    dsimp only
    rw [show envFailB (ExtCall.inspectIp MOTHERSHIP_NODE_NAME) = .ok "" from rfl]
    dsimp only
    rw [show runSeq envFailB
          [ExtCall.ssh MOTHERSHIP_NODE_NAME installComposeCurlCmd,
           ExtCall.ssh MOTHERSHIP_NODE_NAME installComposeChmodCmd,
           ExtCall.ssh MOTHERSHIP_NODE_NAME installMachineCmd] =
        ([ExtCall.ssh MOTHERSHIP_NODE_NAME installComposeCurlCmd,
          ExtCall.ssh MOTHERSHIP_NODE_NAME installComposeChmodCmd,
          ExtCall.ssh MOTHERSHIP_NODE_NAME installMachineCmd], none) from rfl]
    dsimp only
    rw [retryCallsDet_fail_five envFailB
          (ExtCall.ssh MOTHERSHIP_NODE_NAME (createSwarmCmd "tok"))
          (ExtCall.ssh MOTHERSHIP_NODE_NAME rmSwarmCmd) "boom" rfl]
    simp

/-- Witness for C5: applying the trace property at the all-succeeding
environment and the stack-start call, that call is a remote command
through ssh on host A. -/
theorem swarm_ops_only_via_session_on_A_witness :
    (∃ cmd, ExtCall.ssh MOTHERSHIP_NODE_NAME composeUpCmd =
      ExtCall.ssh MOTHERSHIP_NODE_NAME cmd) ∨
    ExtCall.ssh MOTHERSHIP_NODE_NAME composeUpCmd =
      ExtCall.createMachine MOTHERSHIP_NODE_NAME "tok" ∨
    ExtCall.ssh MOTHERSHIP_NODE_NAME composeUpCmd = ExtCall.inspectIp MOTHERSHIP_NODE_NAME ∨
    ExtCall.ssh MOTHERSHIP_NODE_NAME composeUpCmd = ExtCall.spawnSyncCmd rmMothershipCmd :=
  (swarm_ops_only_via_session_on_A envAllOk "tok" "dom" []).1
    (ExtCall.ssh MOTHERSHIP_NODE_NAME composeUpCmd)
    (by
      rw [mainRun_allOk envAllOk (fun _ => "") (fun _ => rfl) "tok" "dom" []]
      simp [expectedHappyTrace])

/-- Amended claim C8: the retry policy itself does not suppress
compensation failures (see the counterexample: a synchronously-throwing
callback stops the loop and the promise never settles), but the workflow's
own destroy-by-name compensations for hosts A and B are best-effort with
their results ignored: the workflow never inspects the environment's
answer to either compensation call, so two environments that agree
everywhere except on the two compensation calls produce identical traces
and identical outcomes. -/
theorem workflow_ignores_compensation_results (env env2 : ExtCall → Except String String)
    (tok dom : String) (buf : List Nat)
    (h : ∀ c, c ≠ ExtCall.spawnSyncCmd rmMothershipCmd →
      c ≠ ExtCall.ssh MOTHERSHIP_NODE_NAME rmSwarmCmd → env c = env2 c) :
    mainRun env tok dom buf = mainRun env2 tok dom buf := by
  have hA : env (ExtCall.createMachine MOTHERSHIP_NODE_NAME tok) =
      env2 (ExtCall.createMachine MOTHERSHIP_NODE_NAME tok) :=
    h _ (by simp) (by simp)
  have hI : env (ExtCall.inspectIp MOTHERSHIP_NODE_NAME) =
      env2 (ExtCall.inspectIp MOTHERSHIP_NODE_NAME) :=
    h _ (by simp) (by simp)
  have hB : env (ExtCall.ssh MOTHERSHIP_NODE_NAME (createSwarmCmd tok)) =
      env2 (ExtCall.ssh MOTHERSHIP_NODE_NAME (createSwarmCmd tok)) := by
    apply h _ (by simp)
    simp only [ne_eq, ExtCall.ssh.injEq, not_and]
    intro _
    exact createSwarmCmd_ne_rmSwarmCmd tok
  have hIp : env (ExtCall.ssh MOTHERSHIP_NODE_NAME swarmIpCmd) =
      env2 (ExtCall.ssh MOTHERSHIP_NODE_NAME swarmIpCmd) :=
    h _ (by simp) (by decide)
  have hseg1 : ∀ c ∈ [ExtCall.ssh MOTHERSHIP_NODE_NAME installComposeCurlCmd,
      ExtCall.ssh MOTHERSHIP_NODE_NAME installComposeChmodCmd,
      ExtCall.ssh MOTHERSHIP_NODE_NAME installMachineCmd], env c = env2 c := by
    intro c hc
    simp only [List.mem_cons, List.not_mem_nil, or_false] at hc
    rcases hc with rfl | rfl | rfl
    · exact h _ (by simp) (by decide)
    · exact h _ (by simp) (by decide)
    · exact h _ (by simp) (by decide)
  have hseg2 : ∀ ip : String,
      ∀ c ∈ [ExtCall.ssh MOTHERSHIP_NODE_NAME (swarmInitCmd ip),
        ExtCall.ssh MOTHERSHIP_NODE_NAME createNetworkCmd,
        ExtCall.ssh MOTHERSHIP_NODE_NAME createListenerCmd,
        ExtCall.ssh MOTHERSHIP_NODE_NAME createProxyCmd,
        ExtCall.ssh MOTHERSHIP_NODE_NAME
          (writeComposeCmd (dockerComposeContentFrom buf dom ip)),
        ExtCall.ssh MOTHERSHIP_NODE_NAME composeUpCmd,
        ExtCall.ssh MOTHERSHIP_NODE_NAME migrateCmd,
        ExtCall.ssh MOTHERSHIP_NODE_NAME seedCmd], env c = env2 c := by
    intro ip c hc
    simp only [List.mem_cons, List.not_mem_nil, or_false] at hc
    rcases hc with rfl | rfl | rfl | rfl | rfl | rfl | rfl | rfl
    · apply h _ (by simp)
      simp only [ne_eq, ExtCall.ssh.injEq, not_and]
      intro _
      exact swarmInitCmd_ne_rmSwarmCmd ip
    · exact h _ (by simp) (by decide)
    · exact h _ (by simp) (by decide)
    · exact h _ (by simp) (by decide)
    · apply h _ (by simp)
      simp only [ne_eq, ExtCall.ssh.injEq, not_and]
      intro _
      exact writeComposeCmd_ne_rmSwarmCmd (dockerComposeContentFrom buf dom ip)
    · exact h _ (by simp) (by decide)
    · exact h _ (by simp) (by decide)
    · exact h _ (by simp) (by decide)
  simp only [mainRun]
  rw [retryCallsDet_congr env env2 (ExtCall.createMachine MOTHERSHIP_NODE_NAME tok)
        (ExtCall.spawnSyncCmd rmMothershipCmd) 5 1 hA,
      hI,
      runSeq_congr env env2
        [ExtCall.ssh MOTHERSHIP_NODE_NAME installComposeCurlCmd,
         ExtCall.ssh MOTHERSHIP_NODE_NAME installComposeChmodCmd,
         ExtCall.ssh MOTHERSHIP_NODE_NAME installMachineCmd] hseg1,
      retryCallsDet_congr env env2 (ExtCall.ssh MOTHERSHIP_NODE_NAME (createSwarmCmd tok))
        (ExtCall.ssh MOTHERSHIP_NODE_NAME rmSwarmCmd) 5 1 hB,
      hIp]
  cases hip2 : env2 (ExtCall.ssh MOTHERSHIP_NODE_NAME swarmIpCmd) with
  | error e => rfl
  | ok rawIp =>
    dsimp only
    rw [runSeq_congr env env2
          [ExtCall.ssh MOTHERSHIP_NODE_NAME (swarmInitCmd rawIp.trim),
           ExtCall.ssh MOTHERSHIP_NODE_NAME createNetworkCmd,
           ExtCall.ssh MOTHERSHIP_NODE_NAME createListenerCmd,
           ExtCall.ssh MOTHERSHIP_NODE_NAME createProxyCmd,
           ExtCall.ssh MOTHERSHIP_NODE_NAME
             (writeComposeCmd (dockerComposeContentFrom buf dom rawIp.trim)),
           ExtCall.ssh MOTHERSHIP_NODE_NAME composeUpCmd,
           ExtCall.ssh MOTHERSHIP_NODE_NAME migrateCmd,
           ExtCall.ssh MOTHERSHIP_NODE_NAME seedCmd] (hseg2 rawIp.trim)]

/-- Witness for the amended C8: the environment in which the swarm create
step always fails produces the same trace and outcome whether or not its
swarm destroy compensation also fails. -/
theorem workflow_ignores_compensation_results_witness :
    mainRun envFailB "tok" "dom" [] = mainRun envFailBBadComp "tok" "dom" [] :=
  workflow_ignores_compensation_results envFailB envFailBBadComp "tok" "dom" []
    (by
      intro c h1 h2
      rw [envFailBBadComp, if_neg h2])

/-- Claim C10: the write-config step sends host A the command
`echo "<descriptor>" >> docker-compose.yml`, i.e. the payload is written
with shell append redirection into `docker-compose.yml`; under append
semantics the file's pre-existing content is preserved as a prefix, and
repeating the step accumulates a duplicate copy of the payload. -/
theorem write_config_append_semantics (tok dom ip : String) (buf : List Nat)
    (old p : String) :
    writeComposeCmd (dockerComposeContentFrom buf dom ip) =
      "echo \"" ++ dockerComposeContentFrom buf dom ip ++ "\" >> docker-compose.yml" ∧
    ExtCall.ssh MOTHERSHIP_NODE_NAME
        (writeComposeCmd (dockerComposeContentFrom buf dom ("".trim))) ∈
      (mainRun (fun _ => Except.ok "") tok dom buf).1 ∧
    shellEchoAppend old (dockerComposeContentFrom buf dom ip) =
      old ++ (dockerComposeContentFrom buf dom ip ++ "\n") ∧
    shellEchoAppend (shellEchoAppend old p) p = old ++ (p ++ "\n") ++ (p ++ "\n") := by
  refine ⟨rfl, ?_, ?_, ?_⟩
  · rw [mainRun_allOk (fun _ => Except.ok "") (fun _ => "") (fun _ => rfl) tok dom buf]
    simp [expectedHappyTrace]
  · rw [shellEchoAppend, String.append_assoc]
  · rw [shellEchoAppend, shellEchoAppend]
    simp [String.append_assoc]

end MothershipSetup
